import Mathlib

/-!
# Verification of the TSU Cares backend presence-and-delivery subsystem

Shallow embedding of the Node/Express/Socket.IO server (`src/unnamed/part_002`):
the in-memory presence registry (`userSocketMap` / `userTypeMap`), the
connection/disconnection handlers, and the message endpoints
(`POST /api/messages/:counselorId`, `POST /api/messages/counselor/:studentId`,
`POST /api/student-messages/:counselorId`, and the two history GET endpoints).

Modelling conventions:
* JavaScript objects used as maps become association lists `List (Nat × α)`
  with JS semantics: property write overwrites an existing key in place and
  otherwise appends; `delete` removes the key; lookup returns the stored value.
  All ids in play are decimal integer strings, so keys are modelled as `Nat`.
* Socket ids are `Nat`.  `io.to(socketId).emit` delivers to exactly the socket
  with that id; `io.emit` delivers to every connected socket.
* The MySQL `messages` table is a list of rows plus an auto-increment counter.
  `NOW()` (the database clock) and `new Date()` (the application clock) are
  separate clock readings, passed in as separate `Nat` parameters.
* `res.json(body)` responds with HTTP status 200; `res.status(s).json(body)`
  with status `s`.
-/

namespace TsuCares

/-- The `senderType` strings `'student'` / `'counselor'` used by the server. -/
inductive Role
  | student
  | counselor
deriving DecidableEq, Repr

/-- A JavaScript object used as a map with integer-string keys. -/
abbrev Obj (α : Type) := List (Nat × α)

/-- JS property write `m[k] = v`: overwrite the entry for `k` in place if
present, otherwise append a new entry. -/
def objSet {α : Type} (m : Obj α) (k : Nat) (v : α) : Obj α :=
  match m with
  | [] => [(k, v)]
  | (k', v') :: rest => if k' = k then (k, v) :: rest else (k', v') :: objSet rest k v

/-- JS `delete m[k]`: remove every entry for key `k`. -/
def objDelete {α : Type} (m : Obj α) (k : Nat) : Obj α :=
  m.filter (fun p => p.1 != k)

/-- JS property read `m[k]`: the value stored at `k`, or `undefined` (`none`). -/
def objLookup {α : Type} (m : Obj α) (k : Nat) : Option α :=
  match m with
  | [] => none
  | (k', v) :: rest => if k' = k then some v else objLookup rest k

/-- JS `Object.keys(m)`. -/
def objKeys {α : Type} (m : Obj α) : List Nat :=
  m.map Prod.fst

/-- The values currently stored in the object (the set of live sockets when
applied to `userSocketMap`). -/
def objValues {α : Type} (m : Obj α) : List α :=
  m.map Prod.snd

/-- The server's shared mutable presence state: `userSocketMap` maps a user id
to its socket id, `userTypeMap` records whether that id connected as a
counselor or a student (part_002 lines 26-27). -/
structure ServerState where
  userSocketMap : Obj Nat
  userTypeMap : Obj Role
deriving DecidableEq, Repr

/-- `getReceiverSocketId(receiverID)` (part_002 lines 30-32): plain map read. -/
def getReceiverSocketId (st : ServerState) (receiverID : Nat) : Option Nat :=
  objLookup st.userSocketMap receiverID

/-- `io.on("connection")` handler (part_002 lines 726-766): read
`counselorID` and `studentID` from the handshake query, take
`userID = counselorID || studentID`, and if truthy register
`userSocketMap[userID] = socket.id` with the role inferred from which query
field was present (counselor wins when both are present).  The connection is
accepted in every case; with no id nothing is registered. -/
def handleConnection (st : ServerState) (counselorID studentID : Option Nat)
    (socketId : Nat) : ServerState :=
  let userID := match counselorID with
    | some c => some c
    | none => studentID
  match userID with
  | some uid =>
      { userSocketMap := objSet st.userSocketMap uid socketId,
        userTypeMap :=
          objSet st.userTypeMap uid
            (if counselorID.isSome then Role.counselor else Role.student) }
  | none => st

/-- `socket.on("disconnect")` handler (part_002 lines 769-796): if this
connection had a `userID`, `delete userSocketMap[userID]` and
`delete userTypeMap[userID]`, unconditionally. -/
def handleDisconnect (st : ServerState) (userID : Option Nat) : ServerState :=
  match userID with
  | some uid =>
      { userSocketMap := objDelete st.userSocketMap uid,
        userTypeMap := objDelete st.userTypeMap uid }
  | none => st

/-- The `getOnlineUsers` presence payload `{counselors, students, all}`
broadcast after every connection and disconnection (part_002 lines 752-766). -/
def onlineUsersPayload (st : ServerState) : List Nat × List Nat × List Nat :=
  (objKeys st.userSocketMap |>.filter
      (fun i => objLookup st.userTypeMap i == some Role.counselor),
   objKeys st.userSocketMap |>.filter
      (fun i => objLookup st.userTypeMap i == some Role.student),
   objKeys st.userSocketMap)

/-- `io.to(socketId).emit(...)`: a targeted push reaches exactly the socket
with that id. -/
def ioTo (socketId : Nat) : List Nat :=
  [socketId]

/-- The emit block shared by all three send endpoints (part_002 lines 453-470,
552-570, 695-712): a targeted emit to the counselor's socket if registered, a
targeted emit to the student's socket if registered, then
`io.emit("newMessage", ...)` which reaches every connected socket.  Returns
the list of socket ids the `newMessage` push is written to. -/
def emitNewMessageTargets (st : ServerState) (counselorId studentId : Nat) :
    List Nat :=
  (match getReceiverSocketId st counselorId with
    | some s => ioTo s
    | none => []) ++
  (match getReceiverSocketId st studentId with
    | some s => ioTo s
    | none => []) ++
  objValues st.userSocketMap

/-! ## Basic lemmas about the JS-object operations -/

theorem objLookup_objSet_self {α : Type} (m : Obj α) (k : Nat) (v : α) :
    objLookup (objSet m k v) k = some v := by
  induction m with
  | nil => simp [objSet, objLookup]
  | cons p rest ih =>
    obtain ⟨k', v'⟩ := p
    by_cases h : k' = k
    · simp [objSet, objLookup, h]
    · simp [objSet, objLookup, h, ih]

theorem objLookup_objSet_ne {α : Type} (m : Obj α) (k k' : Nat) (v : α)
    (h : k' ≠ k) : objLookup (objSet m k v) k' = objLookup m k' := by
  induction m with
  | nil => simp [objSet, objLookup, Ne.symm h]
  | cons p rest ih =>
    obtain ⟨k₀, v₀⟩ := p
    by_cases hk : k₀ = k
    · subst hk
      simp [objSet, objLookup, Ne.symm h]
    · by_cases hk' : k₀ = k'
      · subst hk'
        simp [objSet, objLookup, hk, Ne.symm h]
      · simp [objSet, objLookup, hk, hk', ih]

theorem objLookup_objDelete_self {α : Type} (m : Obj α) (k : Nat) :
    objLookup (objDelete m k) k = none := by
  induction m with
  | nil => simp [objDelete, objLookup]
  | cons p rest ih =>
    obtain ⟨k₀, v₀⟩ := p
    by_cases hk : k₀ = k
    · simpa [objDelete, objLookup, hk] using ih
    · simpa [objDelete, objLookup, hk] using ih

theorem objLookup_objDelete_ne {α : Type} (m : Obj α) (k k' : Nat)
    (h : k' ≠ k) : objLookup (objDelete m k) k' = objLookup m k' := by
  induction m with
  | nil => simp [objDelete, objLookup]
  | cons p rest ih =>
    obtain ⟨k₀, v₀⟩ := p
    by_cases hk : k₀ = k
    · subst hk
      simpa [objDelete, objLookup, Ne.symm h] using ih
    · by_cases hk' : k₀ = k'
      · subst hk'
        simp [objDelete, objLookup, List.filter_cons, hk]
      · simp only [objDelete, List.filter_cons] at ih ⊢
        by_cases hkk : (k₀ != k) = true
        · simp [hkk, objLookup, hk', ih]
        · simp at hkk
          exact absurd hkk hk

theorem objLookup_mem_objValues {α : Type} (m : Obj α) (k : Nat) (v : α)
    (h : objLookup m k = some v) : v ∈ objValues m := by
  induction m with
  | nil => simp [objLookup] at h
  | cons p rest ih =>
    obtain ⟨k₀, v₀⟩ := p
    by_cases hk : k₀ = k
    · simp [objLookup, hk] at h
      simp [objValues, h]
    · simp [objLookup, hk] at h
      simp [objValues]
      exact Or.inr (by simpa [objValues] using ih h)

/-! ## Message store and send endpoints -/

/-- A row of the MySQL `messages` table.  `senderTypeCol` is `none` when the
deployment's table lacks the `senderType` column (the endpoints probe for it
at insert time and fall back to inserting without it). -/
structure StoredMessage where
  messageID : Nat
  counselorID : Nat
  studentID : Nat
  text : String
  senderTypeCol : Option Role
  timestamp : Nat
deriving DecidableEq, Repr

/-- The database as the endpoints see it: the `counselor` and `student`
tables (their id columns), the `messages` table with its auto-increment
counter, and whether the `messages` table has the `senderType` column. -/
structure Db where
  counselors : List Nat
  students : List Nat
  messages : List StoredMessage
  nextId : Nat
  hasSenderTypeColumn : Bool
deriving DecidableEq, Repr

/-- The INSERT-with-fallback block shared by the three send endpoints
(part_002 lines 417-442, 516-541, 659-680): try
`INSERT INTO messages (..., senderType, timestamp) VALUES (..., NOW())`; on
`ER_BAD_FIELD_ERROR` for `senderType` retry without that column.  Returns
`result.insertId` and the updated database.  `dbNow` is the value of the
database clock `NOW()` at the insert. -/
def insertMessage (db : Db) (counselorID studentID : Nat) (text : String)
    (senderType : Role) (dbNow : Nat) : Nat × Db :=
  let row : StoredMessage :=
    { messageID := db.nextId,
      counselorID := counselorID,
      studentID := studentID,
      text := text,
      senderTypeCol := if db.hasSenderTypeColumn then some senderType else none,
      timestamp := dbNow }
  (db.nextId, { db with messages := db.messages ++ [row], nextId := db.nextId + 1 })

/-- The JSON body the send endpoints build after a successful insert: note
`timestamp: new Date().toISOString()` reads the application clock, not the
database's `NOW()`. -/
structure MsgResponse where
  messageID : Nat
  counselorID : Nat
  studentID : Nat
  text : String
  timestamp : Nat
  senderType : Role
deriving DecidableEq, Repr

/-- Outcome of a send endpoint: `err s` is `res.status(s).json({success:false,...})`,
`ok s resp` is a success body with HTTP status `s` (`res.json` gives 200). -/
inductive SendResult
  | err (status : Nat)
  | ok (status : Nat) (resp : MsgResponse)
deriving DecidableEq, Repr

/-- The rows of `SELECT counselorID FROM counselor WHERE counselorID = ?`. -/
def counselorCheckRows (db : Db) (counselorId : Nat) : List Nat :=
  db.counselors.filter (fun c => c == counselorId)

/-- The rows of `SELECT studentID FROM student WHERE studentID = ?`. -/
def studentCheckRows (db : Db) (studentId : Nat) : List Nat :=
  db.students.filter (fun s => s == studentId)

/-- `POST /api/messages/:counselorId` (part_002 lines 383-480), the
student-initiated send: 400 if `studentId` is missing from the query or
`message` is falsy; 404 if the counselor id is not in the `counselor` table;
otherwise insert (senderType `'student'`), respond `res.json` (HTTP 200) with
the built message object, then run the emit block.  Returns the HTTP outcome,
the updated database, and the list of sockets the `newMessage` push reached.
`dbNow` is the database clock at the insert, `appNow` the application clock at
response construction. -/
def postMessages (db : Db) (st : ServerState) (counselorId : Nat)
    (studentId : Option Nat) (message : Option String) (dbNow appNow : Nat) :
    SendResult × Db × List Nat :=
  match studentId with
  | none => (SendResult.err 400, db, [])
  | some sid =>
    match message with
    | none => (SendResult.err 400, db, [])
    | some msg =>
      if msg = "" then (SendResult.err 400, db, [])
      else if (counselorCheckRows db counselorId).length = 0 then
        (SendResult.err 404, db, [])
      else
        let ins := insertMessage db counselorId sid msg Role.student dbNow
        let resp : MsgResponse :=
          { messageID := ins.1,
            counselorID := counselorId,
            studentID := sid,
            text := msg,
            timestamp := appNow,
            senderType := Role.student }
        (SendResult.ok 200 resp, ins.2, emitNewMessageTargets st counselorId sid)

/-- `POST /api/messages/counselor/:studentId` (part_002 lines 482-579), the
counselor-initiated send: 400 if `counselorId` is missing from the query or
`message` is falsy; 404 if the student id is not in the `student` table;
otherwise insert (senderType `'counselor'`), respond `res.json` (HTTP 200),
then run the emit block. -/
def postMessagesCounselor (db : Db) (st : ServerState) (studentId : Nat)
    (counselorId : Option Nat) (message : Option String) (dbNow appNow : Nat) :
    SendResult × Db × List Nat :=
  match counselorId with
  | none => (SendResult.err 400, db, [])
  | some cid =>
    match message with
    | none => (SendResult.err 400, db, [])
    | some msg =>
      if msg = "" then (SendResult.err 400, db, [])
      else if (studentCheckRows db studentId).length = 0 then
        (SendResult.err 404, db, [])
      else
        let ins := insertMessage db cid studentId msg Role.counselor dbNow
        let resp : MsgResponse :=
          { messageID := ins.1,
            counselorID := cid,
            studentID := studentId,
            text := msg,
            timestamp := appNow,
            senderType := Role.counselor }
        (SendResult.ok 200 resp, ins.2, emitNewMessageTargets st cid studentId)

/-- The whitespace characters relevant to the texts in play (JS
`String.prototype.trim` removes leading and trailing whitespace). -/
def jsWhitespace (c : Char) : Bool :=
  c = ' ' || c = '\t' || c = '\n' || c = '\r'

/-- JS `message.trim()`: drop leading and trailing whitespace. -/
def jsTrim (s : String) : String :=
  ⟨((s.data.dropWhile jsWhitespace).reverse.dropWhile jsWhitespace).reverse⟩

/-- `POST /api/student-messages/:counselorId` (part_002 lines 638-722), the
other student-initiated send: 400 if `studentId` is missing or
`!message || message.trim() === ''`; no existence check on either participant;
insert the **trimmed** text (senderType `'student'`), respond `res.json`
(HTTP 200), then run the emit block. -/
def postStudentMessages (db : Db) (st : ServerState) (counselorId : Nat)
    (studentId : Option Nat) (message : Option String) (dbNow appNow : Nat) :
    SendResult × Db × List Nat :=
  match studentId with
  | none => (SendResult.err 400, db, [])
  | some sid =>
    match message with
    | none => (SendResult.err 400, db, [])
    | some msg =>
      if msg = "" ∨ jsTrim msg = "" then (SendResult.err 400, db, [])
      else
        let ins := insertMessage db counselorId sid (jsTrim msg) Role.student dbNow
        let resp : MsgResponse :=
          { messageID := ins.1,
            counselorID := counselorId,
            studentID := sid,
            text := jsTrim msg,
            timestamp := appNow,
            senderType := Role.student }
        (SendResult.ok 200 resp, ins.2, emitNewMessageTargets st counselorId sid)

/-! ## History (GET) endpoints

Both `GET /api/messages/:counselorId` (part_002 lines 352-381) and
`GET /api/student-messages/:counselorId` (lines 609-636) run
`SELECT * FROM messages WHERE (counselorID = ? AND studentID = ?) ORDER BY timestamp ASC`.
SQL guarantees the result is some permutation of the matching rows that is
sorted by `timestamp`; the relative order of rows with equal timestamps is not
specified by the query, so the query is embedded as a relation on possible
result lists. -/

/-- The rows matching the WHERE clause, in table order. -/
def messagesQueryRows (db : Db) (counselorId studentId : Nat) :
    List StoredMessage :=
  db.messages.filter
    (fun m => m.counselorID == counselorId && m.studentID == studentId)

/-- `out` is a possible result of the history SELECT: a permutation of the
matching rows that is sorted ascending by `timestamp` (the only ORDER BY
key). -/
def isMessagesQueryResult (db : Db) (counselorId studentId : Nat)
    (out : List StoredMessage) : Prop :=
  List.Perm out (messagesQueryRows db counselorId studentId) ∧
  List.Sorted (fun a b => a.timestamp ≤ b.timestamp) out

instance (db : Db) (c s : Nat) (out : List StoredMessage) :
    Decidable (isMessagesQueryResult db c s out) := by
  unfold isMessagesQueryResult List.Sorted
  infer_instance

/-- The ordering the spec claims for History: ascending `createdAt`, ties
broken by message id. -/
def tsThenIdLe (a b : StoredMessage) : Prop :=
  a.timestamp < b.timestamp ∨ (a.timestamp = b.timestamp ∧ a.messageID ≤ b.messageID)

instance (a b : StoredMessage) : Decidable (tsThenIdLe a b) := by
  unfold tsThenIdLe
  infer_instance

/-! ## Claim C1 -/

/-- Claim C1 (evidence of failure): the registry is keyed by the bare numeric
id, so a student with `studentID = 5` (socket 100) and a counselor with
`counselorID = 5` (socket 200) share one entry.  After the student connects,
Lookup(5) is the student's socket 100; after the counselor then connects, the
map holds the single entry `(5, 200)` — the counselor's registration
overwrote the student's, and Lookup for the student now returns the
counselor's handle, not the student's own. -/
theorem c1_same_numeric_id_collides :
    getReceiverSocketId (handleConnection (ServerState.mk [] []) none (some 5) 100) 5 =
      some 100 ∧
    (handleConnection (handleConnection (ServerState.mk [] []) none (some 5) 100)
        (some 5) none 200).userSocketMap = [(5, 200)] ∧
    getReceiverSocketId
        (handleConnection (handleConnection (ServerState.mk [] []) none (some 5) 100)
          (some 5) none 200) 5 = some 200 := by
  decide

/-! ## Claim C2 -/

/-- Claim C2 (counterexample): with student 7 (socket 100), counselor 3
(socket 200) and an uninvolved third participant 9 (socket 300) all
connected, a student-initiated send from 7 to 3 pushes the new message to
socket 300 as well — the `io.emit` broadcast reaches every connected client,
so a third participant's connection does receive the push. -/
theorem c2_counterexample_third_party_receives_push :
    300 ∈ (postMessages (Db.mk [3] [7, 9] [] 1 true)
        (ServerState.mk [(7, 100), (3, 200), (9, 300)]
          [(7, Role.student), (3, Role.counselor), (9, Role.student)])
        3 (some 7) (some "hello") 5 6).2.2 := by
  decide

/-- Claim C2 (amended): the emit block run after every stored send pushes the
message to the recipient's and sender's sockets and then broadcasts it with
`io.emit`, so the set of sockets receiving the push is exactly the set of all
currently connected sockets — every third participant included. -/
theorem c2_amended_push_reaches_exactly_connected_sockets
    (st : ServerState) (counselorId studentId x : Nat) :
    x ∈ emitNewMessageTargets st counselorId studentId ↔
      x ∈ objValues st.userSocketMap := by
  constructor
  · intro hx
    simp only [emitNewMessageTargets, List.mem_append] at hx
    rcases hx with (hx | hx) | hx
    · rcases hc : getReceiverSocketId st counselorId with _ | sc
      · rw [hc] at hx
        simp at hx
      · rw [hc] at hx
        simp [ioTo] at hx
        subst hx
        exact objLookup_mem_objValues _ _ _ hc
    · rcases hs : getReceiverSocketId st studentId with _ | ss
      · rw [hs] at hx
        simp at hx
      · rw [hs] at hx
        simp [ioTo] at hx
        subst hx
        exact objLookup_mem_objValues _ _ _ hs
    · exact hx
  · intro hx
    simp only [emitNewMessageTargets, List.mem_append]
    exact Or.inr hx

/-! ## Claim C3 -/

/-- Claim C3 (counterexample): participant 1 registers with handle 10, then
re-registers with handle 20; when the connection that held handle 10
disconnects, the handler deletes the entry for id 1 unconditionally, so
Lookup(1) afterwards is `none`, not the fresh handle 20 as the claim says. -/
theorem c3_counterexample_disconnect_removes_fresh_entry :
    getReceiverSocketId
        (handleDisconnect
          (handleConnection (handleConnection (ServerState.mk [] []) none (some 1) 10)
            none (some 1) 20)
          (some 1)) 1 = none ∧
    getReceiverSocketId
        (handleDisconnect
          (handleConnection (handleConnection (ServerState.mk [] []) none (some 1) 10)
            none (some 1) 20)
          (some 1)) 1 ≠ some 20 := by
  decide

/-- Claim C3 (amended): a disconnect of a connection whose captured `userID`
is `uid` removes the registry entry for `uid` unconditionally — Lookup(uid)
afterwards returns nothing, even if `uid` had re-registered with a newer
handle — while the entry of every other participant id is unchanged. -/
theorem c3_amended_disconnect_unconditional_with_frame
    (st : ServerState) (uid : Nat) :
    getReceiverSocketId (handleDisconnect st (some uid)) uid = none ∧
    ∀ other : Nat, other ≠ uid →
      getReceiverSocketId (handleDisconnect st (some uid)) other =
        getReceiverSocketId st other := by
  constructor
  · simp [handleDisconnect, getReceiverSocketId, objLookup_objDelete_self]
  · intro other hne
    simp [handleDisconnect, getReceiverSocketId,
      objLookup_objDelete_ne _ _ _ hne]

/-- Claim C3 (witness for the amended theorem): with participants 1 (socket
10) and 2 (socket 30) connected, a disconnect for id 1 leaves Lookup(1) =
none and Lookup(2) unchanged. -/
theorem c3_amended_disconnect_unconditional_with_frame_instance :
    getReceiverSocketId
        (handleDisconnect
          (ServerState.mk [(1, 10), (2, 30)] [(1, Role.student), (2, Role.counselor)])
          (some 1)) 1 = none ∧
    getReceiverSocketId
        (handleDisconnect
          (ServerState.mk [(1, 10), (2, 30)] [(1, Role.student), (2, Role.counselor)])
          (some 1)) 2 =
      getReceiverSocketId
        (ServerState.mk [(1, 10), (2, 30)] [(1, Role.student), (2, Role.counselor)]) 2 :=
  ⟨(c3_amended_disconnect_unconditional_with_frame
      (ServerState.mk [(1, 10), (2, 30)] [(1, Role.student), (2, Role.counselor)]) 1).1,
   (c3_amended_disconnect_unconditional_with_frame
      (ServerState.mk [(1, 10), (2, 30)] [(1, Role.student), (2, Role.counselor)]) 1).2
     2 (by decide)⟩

/-! ## Claim C4 -/

/-- Claim C4 (evidence of failure): a handshake presenting both
`counselorID = 3` and `studentID = 4` is not rejected — the handler computes
`userID = counselorID || studentID`, silently registers counselor 3 with the
connection's socket 50, and records the type `'counselor'`.  A registry
entry is created, contrary to the claim. -/
theorem c4_both_identities_still_registers :
    (handleConnection (ServerState.mk [] []) (some 3) (some 4) 50).userSocketMap =
      [(3, 50)] ∧
    objLookup (handleConnection (ServerState.mk [] []) (some 3) (some 4) 50).userTypeMap 3 =
      some Role.counselor ∧
    (handleConnection (ServerState.mk [] []) none none 60) = ServerState.mk [] [] := by
  decide

/-! ## Claim C9 -/

/-- Claim C9: registering participant `p` with handle `h1` and then with
handle `h2` leaves Lookup(p) = h2, and a targeted push on the stale handle
`h1` (`io.to(h1).emit`) never reaches the new connection `h2`. -/
theorem c9_reregistration_wins_and_stale_push_misses
    (st : ServerState) (p h1 h2 : Nat) (hne : h1 ≠ h2) :
    getReceiverSocketId
        (handleConnection (handleConnection st none (some p) h1) none (some p) h2) p =
      some h2 ∧
    h2 ∉ ioTo h1 := by
  constructor
  · simp [handleConnection, getReceiverSocketId, objLookup_objSet_self]
  · simp [ioTo, Ne.symm hne]

/-- Claim C9 (witness): participant 1 registers socket 10 then socket 20;
Lookup(1) = 20 and a push on stale socket 10 does not reach socket 20. -/
theorem c9_reregistration_wins_and_stale_push_misses_instance :
    getReceiverSocketId
        (handleConnection (handleConnection (ServerState.mk [] []) none (some 1) 10)
          none (some 1) 20) 1 = some 20 ∧
    (20 : Nat) ∉ ioTo 10 :=
  c9_reregistration_wins_and_stale_push_misses (ServerState.mk [] []) 1 10 20 (by decide)

/-! ## Claim C10 -/

/-- Claim C10: the two student-initiated send endpoints are not equivalent.
On the whitespace-only text `" "`, `POST /api/messages/:counselorId` (which
only checks `!message`) appends it verbatim and reports success, while
`POST /api/student-messages/:counselorId` (which also checks
`message.trim() === ''`) returns 400 and appends nothing; and on `" hi "`
the latter stores the trimmed `"hi"` while the former stores `" hi "`
unchanged. -/
theorem c10_two_student_send_endpoints_differ :
    ((postMessages (Db.mk [3] [7] [] 1 true) (ServerState.mk [] [])
          3 (some 7) (some " ") 5 6).1 =
        SendResult.ok 200 (MsgResponse.mk 1 3 7 " " 6 Role.student) ∧
      (postMessages (Db.mk [3] [7] [] 1 true) (ServerState.mk [] [])
          3 (some 7) (some " ") 5 6).2.1.messages =
        [StoredMessage.mk 1 3 7 " " (some Role.student) 5]) ∧
    ((postStudentMessages (Db.mk [3] [7] [] 1 true) (ServerState.mk [] [])
          3 (some 7) (some " ") 5 6).1 = SendResult.err 400 ∧
      (postStudentMessages (Db.mk [3] [7] [] 1 true) (ServerState.mk [] [])
          3 (some 7) (some " ") 5 6).2.1.messages = []) ∧
    (postStudentMessages (Db.mk [3] [7] [] 1 true) (ServerState.mk [] [])
        3 (some 7) (some " hi ") 5 6).2.1.messages =
      [StoredMessage.mk 1 3 7 "hi" (some Role.student) 5] ∧
    (postMessages (Db.mk [3] [7] [] 1 true) (ServerState.mk [] [])
        3 (some 7) (some " hi ") 5 6).2.1.messages =
      [StoredMessage.mk 1 3 7 " hi " (some Role.student) 5] := by
  decide

/-! ## Claim C5 -/

/-- Claim C5 (counterexample): `POST /api/student-messages/:counselorId`
performs no existence check at all: a send referencing counselor 99, who is
not in the `counselor` table (the table is empty), is accepted — the endpoint
reports success and appends the message to the store, instead of returning a
client error and appending nothing. -/
theorem c5_counterexample_unknown_counselor_still_appended :
    (postStudentMessages (Db.mk [] [] [] 1 true) (ServerState.mk [] [])
        99 (some 7) (some "hello") 5 6).1 =
      SendResult.ok 200 (MsgResponse.mk 1 99 7 "hello" 6 Role.student) ∧
    (postStudentMessages (Db.mk [] [] [] 1 true) (ServerState.mk [] [])
        99 (some 7) (some "hello") 5 6).2.1.messages =
      [StoredMessage.mk 1 99 7 "hello" (some Role.student) 5] := by
  decide

/-- Claim C5 (amended): the existence checks are per-endpoint, not uniform.
`POST /api/messages/:counselorId` rejects an unknown counselor with a client
error (400 or 404) and appends nothing, and `POST /api/messages/counselor/:studentId`
rejects an unknown student likewise; but `POST /api/student-messages/:counselorId`
checks neither participant and appends the message regardless of whether the
referenced counselor is known. -/
theorem c5_amended_existence_checks_per_endpoint
    (db : Db) (st : ServerState) (cid sid : Nat) (msg : String)
    (dbNow appNow : Nat) :
    (cid ∉ db.counselors →
      (postMessages db st cid (some sid) (some msg) dbNow appNow).2.1 = db ∧
      ∃ code, (postMessages db st cid (some sid) (some msg) dbNow appNow).1 =
          SendResult.err code ∧ (code = 400 ∨ code = 404)) ∧
    (sid ∉ db.students →
      (postMessagesCounselor db st sid (some cid) (some msg) dbNow appNow).2.1 = db ∧
      ∃ code, (postMessagesCounselor db st sid (some cid) (some msg) dbNow appNow).1 =
          SendResult.err code ∧ (code = 400 ∨ code = 404)) ∧
    (msg ≠ "" → jsTrim msg ≠ "" →
      (postStudentMessages db st cid (some sid) (some msg) dbNow appNow).1 =
        SendResult.ok 200
          (MsgResponse.mk db.nextId cid sid (jsTrim msg) appNow Role.student) ∧
      (postStudentMessages db st cid (some sid) (some msg) dbNow appNow).2.1.messages =
        db.messages ++ [StoredMessage.mk db.nextId cid sid (jsTrim msg)
          (if db.hasSenderTypeColumn then some Role.student else none) dbNow]) := by
  refine ⟨?_, ?_, ?_⟩
  · intro hc
    have hrows : counselorCheckRows db cid = [] := by
      simp only [counselorCheckRows, List.filter_eq_nil_iff, beq_iff_eq]
      intro a ha hac
      exact hc (hac ▸ ha)
    by_cases hmsg : msg = ""
    · subst hmsg
      simp [postMessages]
    · simp [postMessages, hmsg, hrows]
  · intro hs
    have hrows : studentCheckRows db sid = [] := by
      simp only [studentCheckRows, List.filter_eq_nil_iff, beq_iff_eq]
      intro a ha has
      exact hs (has ▸ ha)
    by_cases hmsg : msg = ""
    · subst hmsg
      simp [postMessagesCounselor]
    · simp [postMessagesCounselor, hmsg, hrows]
  · intro hmsg htrim
    simp [postStudentMessages, hmsg, htrim, insertMessage]

/-- Claim C5 (witness for the amended theorem): with an empty counselor and
student table, the first two endpoints reject (database unchanged) while the
student-messages endpoint appends a message to counselor 9 anyway. -/
theorem c5_amended_existence_checks_per_endpoint_instance :
    ((postMessages (Db.mk [] [] [] 1 true) (ServerState.mk [] [])
          9 (some 7) (some "hello") 5 6).2.1 = Db.mk [] [] [] 1 true ∧
      ∃ code, (postMessages (Db.mk [] [] [] 1 true) (ServerState.mk [] [])
          9 (some 7) (some "hello") 5 6).1 =
          SendResult.err code ∧ (code = 400 ∨ code = 404)) ∧
    ((postMessagesCounselor (Db.mk [] [] [] 1 true) (ServerState.mk [] [])
          7 (some 9) (some "hello") 5 6).2.1 = Db.mk [] [] [] 1 true ∧
      ∃ code, (postMessagesCounselor (Db.mk [] [] [] 1 true) (ServerState.mk [] [])
          7 (some 9) (some "hello") 5 6).1 =
          SendResult.err code ∧ (code = 400 ∨ code = 404)) ∧
    ((postStudentMessages (Db.mk [] [] [] 1 true) (ServerState.mk [] [])
          9 (some 7) (some "hello") 5 6).1 =
        SendResult.ok 200 (MsgResponse.mk 1 9 7 (jsTrim "hello") 6 Role.student) ∧
      (postStudentMessages (Db.mk [] [] [] 1 true) (ServerState.mk [] [])
          9 (some 7) (some "hello") 5 6).2.1.messages =
        [] ++ [StoredMessage.mk 1 9 7 (jsTrim "hello")
          (if true then some Role.student else none) 5]) :=
  ⟨(c5_amended_existence_checks_per_endpoint (Db.mk [] [] [] 1 true)
      (ServerState.mk [] []) 9 7 "hello" 5 6).1 (by decide),
   (c5_amended_existence_checks_per_endpoint (Db.mk [] [] [] 1 true)
      (ServerState.mk [] []) 9 7 "hello" 5 6).2.1 (by decide),
   (c5_amended_existence_checks_per_endpoint (Db.mk [] [] [] 1 true)
      (ServerState.mk [] []) 9 7 "hello" 5 6).2.2 (by decide) (by decide)⟩

/-! ## Claim C6 -/

/-- Claim C6 (counterexample): a valid send whose recipient (counselor 3) has
no active connection does succeed and stores the message, but the success is
reported through `res.json`, i.e. HTTP status 200 — not 201 as the claim
states. -/
theorem c6_counterexample_success_status_is_200 :
    (postMessages (Db.mk [3] [7] [] 1 true) (ServerState.mk [] [])
        3 (some 7) (some "hello") 5 6).1 =
      SendResult.ok 200 (MsgResponse.mk 1 3 7 "hello" 6 Role.student) ∧
    (200 : Nat) ≠ 201 := by
  decide

/-- Claim C6 (amended): a valid send whose recipient has no active connection
still succeeds — with HTTP status 200, the stored message in the body — the
message is afterwards contained in every possible History result for the
pair, and the HTTP outcome is the same whatever the presence registry holds,
so a failed or skipped delivery is never surfaced to the caller. -/
theorem c6_amended_offline_recipient_send_succeeds
    (db : Db) (st : ServerState) (cid sid : Nat) (msg : String)
    (dbNow appNow : Nat) (hc : cid ∈ db.counselors) (hmsg : msg ≠ "")
    (hoffline : getReceiverSocketId st cid = none) :
    (postMessages db st cid (some sid) (some msg) dbNow appNow).1 =
      SendResult.ok 200 (MsgResponse.mk db.nextId cid sid msg appNow Role.student) ∧
    (∀ out, isMessagesQueryResult
        (postMessages db st cid (some sid) (some msg) dbNow appNow).2.1 cid sid out →
      StoredMessage.mk db.nextId cid sid msg
          (if db.hasSenderTypeColumn then some Role.student else none) dbNow ∈ out) ∧
    ∀ st2 : ServerState,
      (postMessages db st2 cid (some sid) (some msg) dbNow appNow).1 =
        (postMessages db st cid (some sid) (some msg) dbNow appNow).1 := by
  have hrows : ¬(counselorCheckRows db cid).length = 0 := by
    have hmem : cid ∈ counselorCheckRows db cid :=
      List.mem_filter.mpr ⟨hc, by simp⟩
    simp [List.length_eq_zero]
    exact List.ne_nil_of_mem hmem
  refine ⟨?_, ?_, ?_⟩
  · simp [postMessages, hmsg, hrows, insertMessage]
  · intro out hout
    have hmem : StoredMessage.mk db.nextId cid sid msg
        (if db.hasSenderTypeColumn then some Role.student else none) dbNow ∈
        messagesQueryRows
          (postMessages db st cid (some sid) (some msg) dbNow appNow).2.1 cid sid := by
      simp [postMessages, hmsg, hrows, insertMessage, messagesQueryRows]
    exact hout.1.mem_iff.mpr hmem
  · intro st2
    simp [postMessages, hmsg, hrows]

/-- Claim C6 (witness for the amended theorem): counselor 3 exists, nobody is
connected, and the send from student 7 succeeds with status 200; the single
possible History result contains the stored message, and the outcome is
unchanged under a different registry state. -/
theorem c6_amended_offline_recipient_send_succeeds_instance :
    (postMessages (Db.mk [3] [7] [] 1 true) (ServerState.mk [] [])
        3 (some 7) (some "hello") 5 6).1 =
      SendResult.ok 200 (MsgResponse.mk 1 3 7 "hello" 6 Role.student) ∧
    (∀ out, isMessagesQueryResult
        (postMessages (Db.mk [3] [7] [] 1 true) (ServerState.mk [] [])
          3 (some 7) (some "hello") 5 6).2.1 3 7 out →
      StoredMessage.mk 1 3 7 "hello"
          (if (true : Bool) then some Role.student else none) 5 ∈ out) ∧
    ∀ st2 : ServerState,
      (postMessages (Db.mk [3] [7] [] 1 true) st2 3 (some 7) (some "hello") 5 6).1 =
        (postMessages (Db.mk [3] [7] [] 1 true) (ServerState.mk [] [])
          3 (some 7) (some "hello") 5 6).1 :=
  c6_amended_offline_recipient_send_succeeds (Db.mk [3] [7] [] 1 true)
    (ServerState.mk [] []) 3 7 "hello" 5 6 (by decide) (by decide) (by decide)

/-! ## Claim C7 -/

/-- Claim C7 (counterexample): a successful send with database clock
`NOW() = 5` and application clock `new Date() = 7` stores a row with
timestamp 5 but returns a message whose timestamp is 7 — the returned
`createdAt` is not the value the store wrote.  On a deployment without the
`senderType` column, the stored row moreover has no senderType at all while
the response still carries `'student'`. -/
theorem c7_counterexample_response_timestamp_not_stored :
    (postMessages (Db.mk [3] [7] [] 1 true) (ServerState.mk [] [])
        3 (some 7) (some "hello") 5 7).1 =
      SendResult.ok 200 (MsgResponse.mk 1 3 7 "hello" 7 Role.student) ∧
    (postMessages (Db.mk [3] [7] [] 1 true) (ServerState.mk [] [])
        3 (some 7) (some "hello") 5 7).2.1.messages =
      [StoredMessage.mk 1 3 7 "hello" (some Role.student) 5] ∧
    (7 : Nat) ≠ 5 ∧
    (postMessages (Db.mk [3] [7] [] 1 false) (ServerState.mk [] [])
        3 (some 7) (some "hello") 5 7).2.1.messages =
      [StoredMessage.mk 1 3 7 "hello" none 5] := by
  decide

/-- Claim C7 (amended): on every successful send the returned message carries
the store-assigned id and the inserted text, and — when the `senderType`
column exists — the senderType the store wrote; but its timestamp is the
application clock read at response construction (`new Date()`), while the
stored row's timestamp is the database clock (`NOW()`), so the two need not
agree, and on the fallback path the stored row has no senderType. -/
theorem c7_amended_response_vs_stored_record
    (db : Db) (st : ServerState) (cid sid : Nat) (msg : String)
    (dbNow appNow : Nat) :
    (cid ∈ db.counselors → msg ≠ "" →
      (postMessages db st cid (some sid) (some msg) dbNow appNow).1 =
        SendResult.ok 200 (MsgResponse.mk db.nextId cid sid msg appNow Role.student) ∧
      (postMessages db st cid (some sid) (some msg) dbNow appNow).2.1.messages =
        db.messages ++ [StoredMessage.mk db.nextId cid sid msg
          (if db.hasSenderTypeColumn then some Role.student else none) dbNow]) ∧
    (sid ∈ db.students → msg ≠ "" →
      (postMessagesCounselor db st sid (some cid) (some msg) dbNow appNow).1 =
        SendResult.ok 200 (MsgResponse.mk db.nextId cid sid msg appNow Role.counselor) ∧
      (postMessagesCounselor db st sid (some cid) (some msg) dbNow appNow).2.1.messages =
        db.messages ++ [StoredMessage.mk db.nextId cid sid msg
          (if db.hasSenderTypeColumn then some Role.counselor else none) dbNow]) := by
  constructor
  · intro hc hmsg
    have hrows : ¬(counselorCheckRows db cid).length = 0 := by
      have hmem : cid ∈ counselorCheckRows db cid :=
        List.mem_filter.mpr ⟨hc, by simp⟩
      simp [List.length_eq_zero]
      exact List.ne_nil_of_mem hmem
    simp [postMessages, hmsg, hrows, insertMessage]
  · intro hs hmsg
    have hrows : ¬(studentCheckRows db sid).length = 0 := by
      have hmem : sid ∈ studentCheckRows db sid :=
        List.mem_filter.mpr ⟨hs, by simp⟩
      simp [List.length_eq_zero]
      exact List.ne_nil_of_mem hmem
    simp [postMessagesCounselor, hmsg, hrows, insertMessage]

/-- Claim C7 (witness for the amended theorem): concrete successful sends on
both endpoints with `NOW() = 5` and `new Date() = 6`. -/
theorem c7_amended_response_vs_stored_record_instance :
    ((postMessages (Db.mk [3] [7] [] 1 true) (ServerState.mk [] [])
          3 (some 7) (some "hello") 5 6).1 =
        SendResult.ok 200 (MsgResponse.mk 1 3 7 "hello" 6 Role.student) ∧
      (postMessages (Db.mk [3] [7] [] 1 true) (ServerState.mk [] [])
          3 (some 7) (some "hello") 5 6).2.1.messages =
        [] ++ [StoredMessage.mk 1 3 7 "hello"
          (if (true : Bool) then some Role.student else none) 5]) ∧
    ((postMessagesCounselor (Db.mk [3] [7] [] 1 true) (ServerState.mk [] [])
          7 (some 3) (some "hello") 5 6).1 =
        SendResult.ok 200 (MsgResponse.mk 1 3 7 "hello" 6 Role.counselor) ∧
      (postMessagesCounselor (Db.mk [3] [7] [] 1 true) (ServerState.mk [] [])
          7 (some 3) (some "hello") 5 6).2.1.messages =
        [] ++ [StoredMessage.mk 1 3 7 "hello"
          (if (true : Bool) then some Role.counselor else none) 5]) :=
  ⟨(c7_amended_response_vs_stored_record (Db.mk [3] [7] [] 1 true)
      (ServerState.mk [] []) 3 7 "hello" 5 6).1 (by decide) (by decide),
   (c7_amended_response_vs_stored_record (Db.mk [3] [7] [] 1 true)
      (ServerState.mk [] []) 3 7 "hello" 5 6).2 (by decide) (by decide)⟩

/-! ## Claim C8 -/

/-- Claim C8 (counterexample): the history SELECT orders by `timestamp` alone,
so for two messages of the pair (3, 7) sharing timestamp 5 — ids 1 and 2,
one from each role — the list with id 2 before id 1 is a legitimate query
result, yet it is not sorted by (timestamp, then id). -/
theorem c8_counterexample_no_id_tiebreak :
    isMessagesQueryResult
      (Db.mk [3] [7]
        [StoredMessage.mk 1 3 7 "a" (some Role.student) 5,
         StoredMessage.mk 2 3 7 "b" (some Role.counselor) 5] 3 true)
      3 7
      [StoredMessage.mk 2 3 7 "b" (some Role.counselor) 5,
       StoredMessage.mk 1 3 7 "a" (some Role.student) 5] ∧
    ¬ List.Sorted tsThenIdLe
      [StoredMessage.mk 2 3 7 "b" (some Role.counselor) 5,
       StoredMessage.mk 1 3 7 "a" (some Role.student) 5] := by
  decide

/-- Claim C8 (amended): every possible result of the history query contains
exactly the stored messages of the student/counselor pair — sent by either
role — and is sorted ascending by timestamp; the order among messages with
equal timestamps is not constrained by the query (no id tie-break). -/
theorem c8_amended_history_sorted_by_timestamp_only
    (db : Db) (cid sid : Nat) (out : List StoredMessage)
    (h : isMessagesQueryResult db cid sid out) :
    (∀ m : StoredMessage, m ∈ out ↔
      m ∈ db.messages ∧ m.counselorID = cid ∧ m.studentID = sid) ∧
    List.Sorted (fun a b => a.timestamp ≤ b.timestamp) out := by
  obtain ⟨hperm, hsort⟩ := h
  refine ⟨?_, hsort⟩
  intro m
  rw [hperm.mem_iff]
  simp [messagesQueryRows, List.mem_filter]

/-- Claim C8 (witness for the amended theorem): the two-message store above
with the result in reverse-id order satisfies the amended description. -/
theorem c8_amended_history_sorted_by_timestamp_only_instance :
    (∀ m : StoredMessage,
      m ∈ [StoredMessage.mk 2 3 7 "b" (some Role.counselor) 5,
           StoredMessage.mk 1 3 7 "a" (some Role.student) 5] ↔
      m ∈ [StoredMessage.mk 1 3 7 "a" (some Role.student) 5,
           StoredMessage.mk 2 3 7 "b" (some Role.counselor) 5] ∧
      m.counselorID = 3 ∧ m.studentID = 7) ∧
    List.Sorted (fun a b => a.timestamp ≤ b.timestamp)
      [StoredMessage.mk 2 3 7 "b" (some Role.counselor) 5,
       StoredMessage.mk 1 3 7 "a" (some Role.student) 5] :=
  c8_amended_history_sorted_by_timestamp_only
    (Db.mk [3] [7]
      [StoredMessage.mk 1 3 7 "a" (some Role.student) 5,
       StoredMessage.mk 2 3 7 "b" (some Role.counselor) 5] 3 true)
    3 7
    [StoredMessage.mk 2 3 7 "b" (some Role.counselor) 5,
     StoredMessage.mk 1 3 7 "a" (some Role.student) 5]
    (by decide)

end TsuCares
